import Mathlib

/-!
Verification of the Window & Space Query Layer specified for the CGS
bridging headers (CGSConnection.h, CGSSpace.h, CGSWindow.h).

The repository itself contains only C declarations of an external system
API; the spec describes the query layer any consumer builds on top of
those primitives.  The `CGSSpaceMask` constants are transcribed directly
from CGSSpace.h.  The operations (connection acquisition, property
get/set, space directory, window catalog, query facade) have no bodies
in the repository, so they are modelled from the spec, with the system
state made explicit.
-/

namespace CGS

/-- Constant from CGSSpace.h: `kCGSSpaceIncludesCurrent = 1 << 0`. -/
def kCGSSpaceIncludesCurrent : Nat := 1 <<< 0

/-- Constant from CGSSpace.h: `kCGSSpaceIncludesOthers = 1 << 1`. -/
def kCGSSpaceIncludesOthers : Nat := 1 <<< 1

/-- Constant from CGSSpace.h: `kCGSSpaceIncludesUser = 1 << 2`. -/
def kCGSSpaceIncludesUser : Nat := 1 <<< 2

/-- Constant from CGSSpace.h: `kCGSSpaceVisible = 1 << 16`. -/
def kCGSSpaceVisible : Nat := 1 <<< 16

/-- Constant from CGSSpace.h:
`kCGSCurrentSpaceMask = kCGSSpaceIncludesUser | kCGSSpaceIncludesCurrent`. -/
def kCGSCurrentSpaceMask : Nat := kCGSSpaceIncludesUser ||| kCGSSpaceIncludesCurrent

/-- Constant from CGSSpace.h:
`kCGSOtherSpacesMask = kCGSSpaceIncludesOthers | kCGSSpaceIncludesCurrent`. -/
def kCGSOtherSpacesMask : Nat := kCGSSpaceIncludesOthers ||| kCGSSpaceIncludesCurrent

/-- Constant from CGSSpace.h:
`kCGSAllSpacesMask = kCGSSpaceIncludesUser | kCGSSpaceIncludesOthers | kCGSSpaceIncludesCurrent`. -/
def kCGSAllSpacesMask : Nat :=
  kCGSSpaceIncludesUser ||| kCGSSpaceIncludesOthers ||| kCGSSpaceIncludesCurrent

/-- Constant from CGSSpace.h:
`kCGSAllVisibleSpacesMask = kCGSSpaceVisible | kCGSAllSpacesMask`. -/
def kCGSAllVisibleSpacesMask : Nat := kCGSSpaceVisible ||| kCGSAllSpacesMask

/-- `typedef int CGSConnectionID` (CGSConnection.h). -/
abbrev CGSConnectionID := Int

/-- `typedef size_t CGSSpaceID` (CGSSpace.h). -/
abbrev CGSSpaceID := Nat

/-- `CGWindowID`, an unsigned window identifier (CGSWindow.h). -/
abbrev CGWindowID := Nat

/-- Property keys are strings (spec, section 3). -/
abbrev PropertyKey := String

/-- Modelled from the spec: an opaque typed property value
(boolean, number, string, or structured); structured values are kept
abstract as a list of string fields. -/
inductive PropertyValue where
  | bool (b : Bool)
  | num (n : Int)
  | str (s : String)
  | structured (fields : List String)
  deriving DecidableEq

/-- Modelled from the spec, section 7: the error taxonomy
NoSession, NotFound, PermissionDenied, Unavailable.  `Truncated` is an
advisory flag alongside a valid partial result, not an error. -/
inductive CGSError where
  | noSession
  | notFound
  | permissionDenied
  | unavailable
  deriving DecidableEq

/-- A screen rectangle (`CGRect` in CGSWindow.h), with integer
coordinates in the model. -/
structure Rectangle where
  x : Int
  y : Int
  w : Int
  h : Int
  deriving DecidableEq

/-- Modelled from the spec: one compositor window with the attributes
the query layer observes — its identifier, owning connection, whether it
is on screen, whether it is a menu-bar window of its owning process, the
spaces it belongs to, and its screen rectangle. -/
structure WindowInfo where
  id : CGWindowID
  owner : CGSConnectionID
  onScreen : Bool
  menuBar : Bool
  spaces : List CGSSpaceID
  rect : Rectangle
  deriving DecidableEq

/-- Modelled from the spec: one virtual desktop with the attributes the
space masks filter on — user-created or not, visible or not. -/
structure SpaceInfo where
  id : CGSSpaceID
  userCreated : Bool
  visible : Bool
  deriving DecidableEq

/-- Modelled from the spec: the external window-server state at one
instant.  Every operation is a synchronous round trip against such a
state; concurrent desktop changes are modelled by running successive
operations against different states. -/
structure SystemState where
  hasSession : Bool
  ownConn : CGSConnectionID
  knownConns : List CGSConnectionID
  windows : List WindowInfo
  props : List ((CGSConnectionID × CGSConnectionID × PropertyKey) × PropertyValue)
  writable : List (CGSConnectionID × CGSConnectionID)
  spaces : List SpaceInfo
  active : CGSSpaceID
  deriving DecidableEq

/-- Modelled from the spec, section 4.1 (`acquire`, declaration
`CGSMainConnectionID`): returns the process's own ConnectionID; fails
with the fatal `NoSession` error only when the process has no session
with the window server. -/
def acquire (st : SystemState) : Except CGSError CGSConnectionID :=
  if st.hasSession then Except.ok st.ownConn else Except.error CGSError.noSession

/-- Modelled from the spec, section 4.2 (`get`, declaration
`CGSCopyConnectionProperty`): look up the value stored for `key` under
the (connection, target-connection) pair; an unknown target connection
or an absent key yields `NotFound`, never a default value. -/
def getProperty (st : SystemState) (cid targetCID : CGSConnectionID)
    (key : PropertyKey) : Except CGSError PropertyValue :=
  if targetCID ∈ st.knownConns then
    match List.lookup (cid, targetCID, key) st.props with
    | some v => Except.ok v
    | none => Except.error CGSError.notFound
  else
    Except.error CGSError.notFound

/-- Modelled from the spec, section 4.2 (`set`, declaration
`CGSSetConnectionProperty`): store `value` for `key` under the
(connection, target-connection) pair.  An unknown target connection
yields `NotFound`; a target the caller neither owns nor may write
yields `PermissionDenied`; the new entry shadows any older one
(last write wins). -/
def setProperty (st : SystemState) (cid targetCID : CGSConnectionID)
    (key : PropertyKey) (value : PropertyValue) : Except CGSError SystemState :=
  if targetCID ∈ st.knownConns then
    if cid = targetCID ∨ (cid, targetCID) ∈ st.writable then
      Except.ok { st with props := ((cid, targetCID, key), value) :: st.props }
    else
      Except.error CGSError.permissionDenied
  else
    Except.error CGSError.notFound

/-- Modelled from the spec, section 4.3 (`activeSpace`, declaration
`CGSGetActiveSpace`): the currently visible desktop for the session;
never fails under a valid connection. -/
def activeSpace (st : SystemState) (_cid : CGSConnectionID) : CGSSpaceID :=
  st.active

/-- Modelled from the spec, section 3 (SpaceMask axes): whether space
`s` passes the filter `mask` in state `st` — the current-space bit
admits the active space, the other-spaces bit admits the rest, the
user bit is required for user-created spaces, and the visibility bit
restricts to visible spaces. -/
def spaceMatchesMask (st : SystemState) (mask : Nat) (s : CGSSpaceID) : Bool :=
  match st.spaces.find? (fun i => i.id = s) with
  | none => false
  | some info =>
    (if s = st.active
      then mask &&& kCGSSpaceIncludesCurrent ≠ 0
      else mask &&& kCGSSpaceIncludesOthers ≠ 0) &&
    (!info.userCreated || mask &&& kCGSSpaceIncludesUser ≠ 0) &&
    (!(mask &&& kCGSSpaceVisible ≠ 0) || info.visible)

/-- Modelled from the spec, section 4.3: the (possibly empty) set of
spaces window `w` belongs to, filtered by `mask`; a window unknown to
the system yields the empty set. -/
def windowSpaces (st : SystemState) (mask : Nat) (w : CGWindowID) : List CGSSpaceID :=
  match st.windows.find? (fun i => i.id = w) with
  | some info => info.spaces.filter (spaceMatchesMask st mask)
  | none => []

/-- Modelled from the spec, section 4.3 (`spacesForWindows`, declaration
`CGSCopySpacesForWindows`): for each input WindowID, in input order, the
set of spaces it belongs to under `mask`; unknown windows are mapped to
the empty set rather than omitted. -/
def spacesForWindows (st : SystemState) (_cid : CGSConnectionID) (mask : Nat)
    (windowIDs : List CGWindowID) : List (CGWindowID × List CGSSpaceID) :=
  windowIDs.map (fun w => (w, windowSpaces st mask w))

/-- Modelled from the spec, section 4.4: result of one capacity-bounded
list call — the (possibly truncated) ordered sequence, the truncation
flag, and the separately reported true count. -/
structure ListResult where
  ids : List CGWindowID
  truncated : Bool
  trueCount : Nat
  deriving DecidableEq

/-- Modelled from the spec, section 4.4: fetch into a caller-supplied
capacity — return the first `capacity` identifiers, flag truncation
when the true count exceeds the capacity, and report the true count. -/
def boundedFetch (ids : List CGWindowID) (capacity : Nat) : ListResult :=
  { ids := ids.take capacity
    truncated := decide (capacity < ids.length)
    trueCount := ids.length }

/-- The identifiers of the windows of `targetCID`, in enumeration
order. -/
def targetWindows (st : SystemState) (targetCID : CGSConnectionID) : List CGWindowID :=
  (st.windows.filter (fun i => i.owner = targetCID)).map (fun i => i.id)

/-- The identifiers of the on-screen windows of `targetCID`, in
enumeration order. -/
def onScreenWindows (st : SystemState) (targetCID : CGSConnectionID) : List CGWindowID :=
  (st.windows.filter (fun i => i.owner = targetCID && i.onScreen)).map (fun i => i.id)

/-- The identifiers of the menu-bar windows of `targetCID`, in
enumeration order. -/
def menuBarWindows (st : SystemState) (targetCID : CGSConnectionID) : List CGWindowID :=
  (st.windows.filter (fun i => i.owner = targetCID && i.menuBar)).map (fun i => i.id)

/-- Modelled from the spec, section 4.4 (`listWindows`, declaration
`CGSGetWindowList`): capacity-bounded enumeration of the windows of a
target connection. -/
def listWindows (st : SystemState) (_cid targetCID : CGSConnectionID)
    (capacity : Nat) : ListResult :=
  boundedFetch (targetWindows st targetCID) capacity

/-- Modelled from the spec, section 4.4 (`listOnScreenWindows`,
declaration `CGSGetOnScreenWindowList`): capacity-bounded enumeration
of the on-screen windows of a target connection. -/
def listOnScreenWindows (st : SystemState) (_cid targetCID : CGSConnectionID)
    (capacity : Nat) : ListResult :=
  boundedFetch (onScreenWindows st targetCID) capacity

/-- Modelled from the spec, section 4.4 (`listMenuBarWindows`,
declaration `CGSGetProcessMenuBarWindowList`): capacity-bounded
enumeration of the menu-bar windows of a target connection. -/
def listMenuBarWindows (st : SystemState) (_cid targetCID : CGSConnectionID)
    (capacity : Nat) : ListResult :=
  boundedFetch (menuBarWindows st targetCID) capacity

/-- Modelled from the spec, section 4.4 (`screenRect`, declaration
`CGSGetScreenRectForWindow`): the screen rectangle of window `w`, or
`NotFound` when the window no longer exists — the only error this call
produces. -/
def screenRect (st : SystemState) (_cid : CGSConnectionID) (w : CGWindowID) :
    Except CGSError Rectangle :=
  match st.windows.find? (fun i => i.id = w) with
  | some info => Except.ok info.rect
  | none => Except.error CGSError.notFound

/-- Whether window `w` exists in state `st`. -/
def windowExists (st : SystemState) (w : CGWindowID) : Bool :=
  (st.windows.find? (fun i => i.id = w)).isSome

/-- Modelled from the spec, section 3: a point-in-time composite of
window identifier, owning connection, space set and screen rectangle,
built by the query facade. -/
structure WindowRecord where
  id : CGWindowID
  owner : CGSConnectionID
  spaces : List CGSSpaceID
  rect : Rectangle
  deriving DecidableEq

/-- Modelled from the spec, section 4.5 (steps 3-5): join the
enumerated WindowIDs with their spaces (resolved against the
enumeration-time state `st1`) and their screen rectangles (resolved
against the later state `st2`); a window whose rectangle lookup yields
`NotFound` — it vanished between enumeration and lookup — is dropped
silently.  The result is a record sequence and the truncation flag;
no error is surfaced. -/
def resolveRecord (st1 st2 : SystemState) (cid targetCID : CGSConnectionID)
    (mask : Nat) (w : CGWindowID) : Option WindowRecord :=
  match screenRect st2 cid w with
  | Except.ok r => some { id := w, owner := targetCID,
                          spaces := windowSpaces st1 mask w, rect := r }
  | Except.error _ => none

/-- Modelled from the spec, section 4.5 (steps 1-2 and failure
semantics): fetch the window list once and pair the joined records with
the truncation flag; truncation is surfaced as a flag alongside a valid
partial result, never as a failure. -/
def queryFacade (st1 st2 : SystemState) (cid targetCID : CGSConnectionID)
    (mask : Nat) (capacity : Nat) : List WindowRecord × Bool :=
  ((listWindows st1 cid targetCID capacity).ids.filterMap
      (resolveRecord st1 st2 cid targetCID mask),
   (listWindows st1 cid targetCID capacity).truncated)

/-- A fixed demonstration rectangle. -/
def rect0 : Rectangle := { x := 0, y := 0, w := 100, h := 50 }

/-- A demonstration window owned by connection 1, lying on space 1. -/
def demoWindow (n : Nat) : WindowInfo :=
  { id := n, owner := 1, onScreen := true, menuBar := false,
    spaces := [1], rect := rect0 }

/-- A demonstration system state: one session, one known connection,
five windows, one visible space, no stored properties. -/
def stFive : SystemState :=
  { hasSession := true
    ownConn := 1
    knownConns := [1]
    windows := [demoWindow 10, demoWindow 11, demoWindow 12, demoWindow 13, demoWindow 14]
    props := []
    writable := []
    spaces := [{ id := 1, userCreated := false, visible := true }]
    active := 1 }

/-- A demonstration property value. -/
def propValueDemo : PropertyValue := PropertyValue.str "v"

/-- `stFive` after storing `propValueDemo` under key `k` for the
(1, 1) connection pair. -/
def stFiveSet : SystemState :=
  { stFive with props := [((1, 1, "k"), propValueDemo)] }

/-- C6: the three spatial-axis flags of `CGSSpaceMask` and the
visibility bit are pairwise disjoint bits, and each of the four
pre-defined masks equals a bitwise OR of a subset of those four flags,
exactly as declared in CGSSpace.h. -/
theorem spaceMask_axes_disjoint_and_unions :
    (kCGSSpaceIncludesCurrent &&& kCGSSpaceIncludesOthers = 0) ∧
    (kCGSSpaceIncludesCurrent &&& kCGSSpaceIncludesUser = 0) ∧
    (kCGSSpaceIncludesCurrent &&& kCGSSpaceVisible = 0) ∧
    (kCGSSpaceIncludesOthers &&& kCGSSpaceIncludesUser = 0) ∧
    (kCGSSpaceIncludesOthers &&& kCGSSpaceVisible = 0) ∧
    (kCGSSpaceIncludesUser &&& kCGSSpaceVisible = 0) ∧
    (kCGSCurrentSpaceMask = kCGSSpaceIncludesUser ||| kCGSSpaceIncludesCurrent) ∧
    (kCGSOtherSpacesMask = kCGSSpaceIncludesOthers ||| kCGSSpaceIncludesCurrent) ∧
    (kCGSAllSpacesMask =
      kCGSSpaceIncludesUser ||| kCGSSpaceIncludesOthers ||| kCGSSpaceIncludesCurrent) ∧
    (kCGSAllVisibleSpacesMask =
      kCGSSpaceVisible ||| kCGSSpaceIncludesUser ||| kCGSSpaceIncludesOthers |||
        kCGSSpaceIncludesCurrent) := by
  decide

/-- C10: exact compositions of the pre-defined masks: the current-space
mask also sets the user bit, the other-spaces mask also sets the
current bit, every pre-defined mask contains the current bit, the
current and other masks are bitwise subsets of the all mask, and the
all mask is a bitwise subset of the all-visible mask. -/
theorem predefMask_compositions :
    (kCGSCurrentSpaceMask = kCGSSpaceIncludesUser ||| kCGSSpaceIncludesCurrent) ∧
    (kCGSOtherSpacesMask = kCGSSpaceIncludesOthers ||| kCGSSpaceIncludesCurrent) ∧
    (kCGSCurrentSpaceMask &&& kCGSSpaceIncludesCurrent = kCGSSpaceIncludesCurrent) ∧
    (kCGSOtherSpacesMask &&& kCGSSpaceIncludesCurrent = kCGSSpaceIncludesCurrent) ∧
    (kCGSAllSpacesMask &&& kCGSSpaceIncludesCurrent = kCGSSpaceIncludesCurrent) ∧
    (kCGSAllVisibleSpacesMask &&& kCGSSpaceIncludesCurrent = kCGSSpaceIncludesCurrent) ∧
    (kCGSCurrentSpaceMask &&& kCGSAllSpacesMask = kCGSCurrentSpaceMask) ∧
    (kCGSOtherSpacesMask &&& kCGSAllSpacesMask = kCGSOtherSpacesMask) ∧
    (kCGSAllSpacesMask &&& kCGSAllVisibleSpacesMask = kCGSAllSpacesMask) := by
  decide

/-- Helper: a bounded fetch truncates to the capacity exactly when the
true count exceeds it, and always reports the true count. -/
theorem boundedFetch_capacity (ids : List CGWindowID) (c : Nat) :
    (ids.length > c →
      (boundedFetch ids c).ids.length = c ∧
      (boundedFetch ids c).truncated = true ∧
      (boundedFetch ids c).trueCount = ids.length) ∧
    (ids.length ≤ c →
      (boundedFetch ids c).truncated = false ∧
      (boundedFetch ids c).ids.length = ids.length) := by
  constructor
  · intro h
    refine ⟨?_, ?_, rfl⟩
    · simp [boundedFetch, List.length_take]
      omega
    · simp [boundedFetch]
      omega
  · intro h
    constructor
    · simp [boundedFetch]
      omega
    · simp [boundedFetch, List.length_take]
      omega

/-- C1: for each of the three capacity-bounded list operations, when the
true count exceeds the capacity the returned sequence has length exactly
the capacity and the call reports truncation together with the true
count; when the true count is at most the capacity no truncation is
reported and the sequence length equals the true count. -/
theorem listOps_capacity_contract (st : SystemState) (cid targetCID : CGSConnectionID)
    (c : Nat) :
    (((targetWindows st targetCID).length > c →
        (listWindows st cid targetCID c).ids.length = c ∧
        (listWindows st cid targetCID c).truncated = true ∧
        (listWindows st cid targetCID c).trueCount = (targetWindows st targetCID).length) ∧
      ((targetWindows st targetCID).length ≤ c →
        (listWindows st cid targetCID c).truncated = false ∧
        (listWindows st cid targetCID c).ids.length = (targetWindows st targetCID).length)) ∧
    (((onScreenWindows st targetCID).length > c →
        (listOnScreenWindows st cid targetCID c).ids.length = c ∧
        (listOnScreenWindows st cid targetCID c).truncated = true ∧
        (listOnScreenWindows st cid targetCID c).trueCount = (onScreenWindows st targetCID).length) ∧
      ((onScreenWindows st targetCID).length ≤ c →
        (listOnScreenWindows st cid targetCID c).truncated = false ∧
        (listOnScreenWindows st cid targetCID c).ids.length = (onScreenWindows st targetCID).length)) ∧
    (((menuBarWindows st targetCID).length > c →
        (listMenuBarWindows st cid targetCID c).ids.length = c ∧
        (listMenuBarWindows st cid targetCID c).truncated = true ∧
        (listMenuBarWindows st cid targetCID c).trueCount = (menuBarWindows st targetCID).length) ∧
      ((menuBarWindows st targetCID).length ≤ c →
        (listMenuBarWindows st cid targetCID c).truncated = false ∧
        (listMenuBarWindows st cid targetCID c).ids.length = (menuBarWindows st targetCID).length)) :=
  ⟨boundedFetch_capacity (targetWindows st targetCID) c,
   boundedFetch_capacity (onScreenWindows st targetCID) c,
   boundedFetch_capacity (menuBarWindows st targetCID) c⟩

/-- Witness for C1: capacity 0 with true window count 5 yields an empty
sequence, the truncation flag, and reported true count 5. -/
theorem listOps_capacity_contract_witness :
    (targetWindows stFive 1).length = 5 ∧
    (listWindows stFive 1 1 0).ids.length = 0 ∧
    (listWindows stFive 1 1 0).truncated = true ∧
    (listWindows stFive 1 1 0).trueCount = (targetWindows stFive 1).length :=
  ⟨by decide, (listOps_capacity_contract stFive 1 1 0).1.1 (by decide)⟩

/-- C2: `spacesForWindows` returns exactly one mapping entry per input
WindowID, in input order, and a WindowID unknown to the system is mapped
to the empty set of SpaceIDs rather than omitted. -/
theorem spacesForWindows_total_ordered (st : SystemState) (cid : CGSConnectionID)
    (mask : Nat) (ids : List CGWindowID) :
    (spacesForWindows st cid mask ids).length = ids.length ∧
    (spacesForWindows st cid mask ids).map Prod.fst = ids ∧
    (∀ w, w ∈ ids → st.windows.find? (fun i => i.id = w) = none →
      (w, ([] : List CGSSpaceID)) ∈ spacesForWindows st cid mask ids) := by
  refine ⟨by simp [spacesForWindows], by simp [spacesForWindows, Function.comp_def], ?_⟩
  intro w hw hnone
  have hempty : windowSpaces st mask w = [] := by simp [windowSpaces, hnone]
  have hmem : (w, windowSpaces st mask w) ∈
      ids.map (fun v => (v, windowSpaces st mask v)) :=
    List.mem_map_of_mem (fun v => (v, windowSpaces st mask v)) hw
  rw [hempty] at hmem
  exact hmem

/-- Witness for C2: querying one unknown WindowID under the all-spaces
mask yields exactly one entry, keyed by that WindowID, with the empty
space set. -/
theorem spacesForWindows_total_ordered_witness :
    (spacesForWindows stFive 1 kCGSAllSpacesMask [99]).length = 1 ∧
    (spacesForWindows stFive 1 kCGSAllSpacesMask [99]).map Prod.fst = [99] ∧
    (99, ([] : List CGSSpaceID)) ∈ spacesForWindows stFive 1 kCGSAllSpacesMask [99] := by
  obtain ⟨h1, h2, h3⟩ := spacesForWindows_total_ordered stFive 1 kCGSAllSpacesMask [99]
  exact ⟨h1, h2, h3 99 (by decide) (by decide)⟩

/-- C3: a `screenRect` call on a WindowID returned by any of the three
list operations, in any later state, either succeeds with a rectangle or
fails with `NotFound`; no other error kind is produced. -/
theorem screenRect_ok_or_notFound (st1 st2 : SystemState)
    (cid targetCID : CGSConnectionID) (c : Nat) (w : CGWindowID)
    (hw : w ∈ (listWindows st1 cid targetCID c).ids ∨
          w ∈ (listOnScreenWindows st1 cid targetCID c).ids ∨
          w ∈ (listMenuBarWindows st1 cid targetCID c).ids) :
    (∃ r, screenRect st2 cid w = Except.ok r) ∨
    screenRect st2 cid w = Except.error CGSError.notFound := by
  rcases h : st2.windows.find? (fun i => i.id = w) with _ | info
  · exact Or.inr (by simp [screenRect, h])
  · exact Or.inl ⟨info.rect, by simp [screenRect, h]⟩

/-- Witness for C3: window 10 is returned by `listWindows` on the
demonstration state, and `screenRect` on it succeeds or yields
`NotFound`. -/
theorem screenRect_ok_or_notFound_witness :
    (∃ r, screenRect stFive 1 10 = Except.ok r) ∨
    screenRect stFive 1 10 = Except.error CGSError.notFound :=
  screenRect_ok_or_notFound stFive stFive 1 1 5 10 (Or.inl (by decide))

/-- Helper: when `f` is some exactly on the elements satisfying `p`,
filtering by mapping has the same length as filtering by `p`. -/
theorem length_filterMap_eq_length_filter {α β : Type} (f : α → Option β)
    (p : α → Bool) (hfp : ∀ a, (f a).isSome = p a) (l : List α) :
    (l.filterMap f).length = (l.filter p).length := by
  induction l with
  | nil => rfl
  | cons a t ih =>
    cases hfa : f a with
    | none =>
      have hpa : p a = false := by rw [← hfp a, hfa]; rfl
      simp [List.filterMap_cons, List.filter_cons, hfa, hpa, ih]
    | some b =>
      have hpa : p a = true := by rw [← hfp a, hfa]; rfl
      simp [List.filterMap_cons, List.filter_cons, hfa, hpa, ih]

/-- Helper: the elements satisfying `p` and those failing it partition
the length of a list. -/
theorem length_filter_add_length_filter_not {α : Type} (p : α → Bool) (l : List α) :
    (l.filter p).length + (l.filter (fun a => !p a)).length = l.length := by
  induction l with
  | nil => rfl
  | cons a t ih =>
    cases hpa : p a <;> simp [List.filter_cons, hpa] <;> omega

/-- C4: when the facade enumerates `k` windows and `m` of them have
vanished by rectangle-resolution time, the result contains exactly
`k - m` records; vanished windows are dropped silently and the return
type surfaces no error. -/
theorem queryFacade_drops_vanished (st1 st2 : SystemState)
    (cid targetCID : CGSConnectionID) (mask : Nat) (c : Nat) :
    (queryFacade st1 st2 cid targetCID mask c).1.length =
      (listWindows st1 cid targetCID c).ids.length -
        ((listWindows st1 cid targetCID c).ids.filter
            (fun w => !windowExists st2 w)).length := by
  have hfp : ∀ w, (resolveRecord st1 st2 cid targetCID mask w).isSome = windowExists st2 w := by
    intro w
    unfold resolveRecord screenRect windowExists
    cases st2.windows.find? (fun i => i.id = w) <;> rfl
  have h1 := length_filterMap_eq_length_filter (resolveRecord st1 st2 cid targetCID mask)
    (windowExists st2) hfp (listWindows st1 cid targetCID c).ids
  have h2 := length_filter_add_length_filter_not (windowExists st2)
    (listWindows st1 cid targetCID c).ids
  have hq : (queryFacade st1 st2 cid targetCID mask c).1 =
      (listWindows st1 cid targetCID c).ids.filterMap
        (resolveRecord st1 st2 cid targetCID mask) := rfl
  rw [hq, h1]
  omega

/-- C5: a successful `setProperty` on one's own connection followed by
`getProperty` on the same key, with no intervening write, returns
exactly the stored value. -/
theorem set_get_roundtrip (st st2 : SystemState) (conn : CGSConnectionID)
    (key : PropertyKey) (value : PropertyValue)
    (h : setProperty st conn conn key value = Except.ok st2) :
    getProperty st2 conn conn key = Except.ok value := by
  unfold setProperty at h
  split at h
  next hk =>
    split at h
    next =>
      cases h
      simp [getProperty, hk, List.lookup]
    next => cases h
  next => cases h

/-- Witness for C5: storing value `v` under key `k` on connection 1 and
reading it back yields `v`. -/
theorem set_get_roundtrip_witness :
    getProperty stFiveSet 1 1 "k" = Except.ok propValueDemo :=
  set_get_roundtrip stFive stFiveSet 1 "k" propValueDemo (by rfl)

/-- C7: `getProperty` on a key that is absent for the
(connection, target-connection) pair fails with `NotFound`; it never
succeeds with a placeholder value. -/
theorem get_absent_notFound (st : SystemState) (cid targetCID : CGSConnectionID)
    (key : PropertyKey)
    (h : List.lookup (cid, targetCID, key) st.props = none) :
    getProperty st cid targetCID key = Except.error CGSError.notFound := by
  unfold getProperty
  split
  · rw [h]
  · rfl

/-- Witness for C7: no property is stored for key `missing`, and the
lookup fails with `NotFound`. -/
theorem get_absent_notFound_witness :
    getProperty stFive 1 1 "missing" = Except.error CGSError.notFound :=
  get_absent_notFound stFive 1 1 "missing" (by decide)

/-- C8: two `activeSpace` calls under a valid connection with no
intervening space change return the same SpaceID. -/
theorem activeSpace_deterministic (st1 st2 : SystemState) (cid : CGSConnectionID)
    (hvalid : cid ∈ st1.knownConns) (hsame : st1.active = st2.active) :
    activeSpace st1 cid = activeSpace st2 cid :=
  hsame

/-- Witness for C8: two immediate calls on the demonstration state
agree. -/
theorem activeSpace_deterministic_witness :
    activeSpace stFive 1 = activeSpace stFive 1 :=
  activeSpace_deterministic stFive stFive 1 (by decide) rfl

/-- C9: `acquire` is idempotent — whenever the process has a session it
succeeds with the process's own ConnectionID (so any two calls agree),
and only without a session does it fail, with the fatal `NoSession`
error. -/
theorem acquire_idempotent_spec (st : SystemState) :
    (st.hasSession = true → acquire st = Except.ok st.ownConn) ∧
    (st.hasSession = false → acquire st = Except.error CGSError.noSession) := by
  constructor
  · intro h
    simp [acquire, h]
  · intro h
    simp [acquire, h]

/-- Witness for C9: the demonstration state has a session and `acquire`
returns its own ConnectionID. -/
theorem acquire_idempotent_spec_witness :
    acquire stFive = Except.ok stFive.ownConn :=
  (acquire_idempotent_spec stFive).1 rfl

end CGS
